import Mathlib

/-!
Shallow embedding of the Etatherm Modbus climate client
(`custom_components/etetherm_modbus/etathermmodbus.py` and `const.py`).

Bytes are modelled as `Nat` (a Python `bytes` element is in `0..255`; theorems
carry `< 256` bounds where they matter).  Python's floor division `//` on a
nonnegative divisor is `Int.fdiv`; `x & 0x1F` on a possibly negative Python int
equals the nonnegative residue `x % 32`, which is Lean's `Int.emod`.  Decoded
strings are kept as the byte lists they are decoded from (the code-page 1250
decode is injective on the byte lists that occur here, so string identity is
byte-list identity).
-/

namespace Etatherm

/-- `const.py`: retry count for Modbus operations. -/
def CONF_MODBUS_RETR : Nat := 10

/-- `const.py`: delay (in seconds) between retries. -/
def CONF_MODBUS_RETR_WAIT : Nat := 1

/-- Result of a transport call: pymodbus responses expose `isError()` and a
register payload (`registers`, here already as the byte list that
`bytes(response.registers)` produces). -/
structure ModbusResult where
  isError : Bool
  registers : List Nat
deriving DecidableEq, Repr

/-- `__read_params` line 147-148: `used = params[0] & 0x07; used = used != 0`. -/
def decodeUsed (b0 : Nat) : Bool := b0 &&& 0x07 != 0

/-- `__read_params` line 149-150: `shift = params[2] & 0x3F; shift = shift - (64 * (shift // 32))`. -/
def decodeShift (b2 : Nat) : Int :=
  ((b2 &&& 0x3F : Nat) : Int) - 64 * ((b2 &&& 0x3F) / 32 : Nat)

/-- `__read_params` line 151-152: `step = (params[2] & 0xC0) >> 6; step = step + 1`. -/
def decodeStep (b2 : Nat) : Nat := ((b2 &&& 0xC0) >>> 6) + 1

/-- The `{used, shift, step}` triple decoded from a 4-byte config block. -/
structure ZoneParams where
  used : Bool
  shift : Int
  step : Nat
deriving DecidableEq, Repr

/-- Decoding of a 4-byte zone config block, `__read_params` lines 146-152. -/
def decode_zone_params (b : List Nat) : ZoneParams :=
  { used := decodeUsed (b.getD 0 0)
    shift := decodeShift (b.getD 2 0)
    step := decodeStep (b.getD 2 0) }

/-- `get_parameters` line 37: `"min": (1 + p["shift"]) * p["step"]`. -/
def minTemp (shift : Int) (step : Nat) : Int := (1 + shift) * step

/-- `get_parameters` line 38: `"max": (30 + p["shift"]) * p["step"]`. -/
def maxTemp (shift : Int) (step : Nat) : Int := (30 + shift) * step

/-- `get_current_temperatures` line 103: `res[pos] = (b + position["shift"]) * position["step"]`. -/
def decodeCurrentTemp (b : Nat) (shift : Int) (step : Nat) : Int :=
  ((b : Nat) + shift) * (step : Nat)

/-- `set_temporary_temperature` line 71:
`temp = (floor(temperature) // position["step"] - position["shift"]) & 0x1F`.
Python's `& 0x1F` on an int is the nonnegative residue mod 32 (`Int.emod`). -/
def targetRawLevel (temperature : Int) (step : Nat) (shift : Int) : Int :=
  (Int.fdiv temperature (step : Nat) - shift) % 32

/-- The `{temp, flag}` pair of `get_required_temperatures`. -/
structure Requirement where
  temp : Int
  flag : Nat
deriving DecidableEq, Repr

/-- `get_required_temperatures` lines 116-122:
`b = data[pos-1] & 0x1F; flag = data[pos-1] >> 5;
res[pos] = {"temp": (b + shift) * step, "flag": flag}`. -/
def decodeRequirement (byte : Nat) (shift : Int) (step : Nat) : Requirement :=
  { temp := ((byte &&& 0x1F : Nat) + shift) * (step : Nat)
    flag := byte >>> 5 }

/-- `set_mode` lines 52-55: from the 6-byte block previously read, build the
5-byte block to write back.  `data[1:5]` is `(data.drop 1).take 4`. -/
def toggleModeBytes (data : List Nat) (auto : Bool) : List Nat :=
  if auto then
    (data.getD 0 0 &&& 0xDF) :: [0x10, 0x80, 0x10, 0x80]
  else
    (data.getD 0 0 ||| 0x20) :: (data.drop 1).take 4

/-- `__get_toy` lines 126-132: `(minute // 15) + hour*4 + day*32*4 + month*32*32*4`. -/
def getToy (minute hour day month : Nat) : Nat :=
  minute / 15 + hour * 4 + day * 32 * 4 + month * 32 * 32 * 4

/-- Python `n.to_bytes(2, "big")` for `n < 65536`. -/
def toBytesBE2 (n : Nat) : List Nat := [n / 256 % 256, n % 256]

/-- `set_temporary_temperature` lines 80-84: the 5-byte payload
`bytes([(data[0] & 0xC0) + temp]) + start.to_bytes(2,"big") + end.to_bytes(2,"big")`. -/
def encodeTemporaryOverride (existing0 temp startToy endToy : Nat) : List Nat :=
  ((existing0 &&& 0xC0) + temp) :: (toBytesBE2 startToy ++ toBytesBE2 endToy)

/-- The payload of `set_temporary_temperature` as a function of the byte read
back, the requested temperature, the zone's `shift`/`step`, and the two
time-of-year stamps (line 71 composed with lines 80-84). -/
def setTemporaryPayload (existing0 : Nat) (temperature shift : Int) (step : Nat)
    (startToy endToy : Nat) : List Nat :=
  encodeTemporaryOverride existing0 (targetRawLevel temperature step shift).toNat
    startToy endToy

/-! ### Retry loop (`async_read_holding_registers` / `async_write_register`) -/

/-- The loop body of lines 212-217 / 225-230:
`for i in range(0, CONF_MODBUS_RETR): regs_l = f(i); if regs_l.isError(): sleep(WAIT) else: break`,
returning the last obtained result and the number of `sleep` calls performed.
`f i` is the transport's answer to the `i`-th attempt.  The `fuel = 0` base
case is unreachable from `etaRetry` since `CONF_MODBUS_RETR = 10 > 0`. -/
def retryLoop (f : Nat → ModbusResult) : Nat → Nat → ModbusResult × Nat
  | i, 0 => (f i, 0)
  | i, fuel + 1 =>
    if (f i).isError then
      if fuel = 0 then (f i, 1)
      else
        let rest := retryLoop f (i + 1) fuel
        (rest.1, rest.2 + 1)
    else (f i, 0)

/-- The whole retry discipline of `async_read_holding_registers` /
`async_write_register`: attempts start at 0, bounded by `CONF_MODBUS_RETR`. -/
def etaRetry (f : Nat → ModbusResult) : ModbusResult × Nat :=
  retryLoop f 0 CONF_MODBUS_RETR

/-! ### Parameter population (`__read_params`) and the cache -/

/-- The bytes of the string `"<timeout>"` (`__read_params` line 144). -/
def timeoutNameBytes : List Nat := [60, 116, 105, 109, 101, 111, 117, 116, 62]

/-- `__read_params` lines 162-164: `end = name.find(b"\x00"); if end != -1: name = name[:end]`. -/
def truncAtZero (name : List Nat) : List Nat := name.takeWhile (fun b => b != 0)

/-- One cache entry: `{"used": ..., "name": ..., "shift": ..., "step": ...}`. -/
structure SlotEntry where
  used : Bool
  name : List Nat
  shift : Int
  step : Nat
deriving DecidableEq, Repr

/-- The body of `__read_params`' per-slot loop (lines 139-168) as a function of
the two transport responses.  NOTE: line 158 of the source tests
`param_response.isError()` — not `name_response.isError()` — when deciding
whether to blank the name, and that is reproduced faithfully here: at that
point `param_response.isError()` is always false (the `continue` at line 145
fired otherwise), so the name-read response's registers are used even when the
name read failed. -/
def readParamsEntry (paramRes nameRes : ModbusResult) : SlotEntry :=
  if paramRes.isError then
    { used := false, name := timeoutNameBytes, shift := 5, step := 1 }
  else
    let params := paramRes.registers
    let used := decodeUsed (params.getD 0 0)
    let shift := decodeShift (params.getD 2 0)
    let step := decodeStep (params.getD 2 0)
    if used then
      let name := if paramRes.isError then [] else nameRes.registers
      { used := used, name := truncAtZero name, shift := shift, step := step }
    else
      { used := used, name := [], shift := shift, step := step }

/-- `__read_params` line 139: `addr = 0x1100 + (pos - 1) * 0x10`. -/
def paramAddr (pos : Nat) : Nat := 0x1100 + (pos - 1) * 0x10

/-- `__read_params` line 154: `addr = 0x1030 + (pos - 1) * 8`. -/
def nameAddr (pos : Nat) : Nat := 0x1030 + (pos - 1) * 8

/-- A device behaviour: the transport's response as a function of `(address, count)`. -/
def Device : Type := Nat → Nat → ModbusResult

/-- `__read_params` lines 134-169: the cache built by the loop over `pos in range(1, 17)`. -/
def readParams (dev : Device) : List (Nat × SlotEntry) :=
  (List.range 16).map fun i =>
    let pos := i + 1
    (pos, readParamsEntry (dev (paramAddr pos) 4) (dev (nameAddr pos) 8))

/-- Number of transport reads `__read_params` performs: one config read per
slot, plus one name read for each slot whose config read succeeded and says
`used`. -/
def readParamsReads (dev : Device) : Nat :=
  ((List.range 16).map fun i =>
    let pos := i + 1
    let p := dev (paramAddr pos) 4
    if p.isError then 1
    else if decodeUsed (p.registers.getD 0 0) then 2 else 1).sum

/-- One zone of `get_parameters`' result: `{"name": ..., "min": ..., "max": ...}`. -/
structure ZoneInfo where
  name : List Nat
  min : Int
  max : Int
deriving DecidableEq, Repr

/-- `get_parameters` lines 34-42: keep `used` entries, publish name and bounds. -/
def listZones (cache : List (Nat × SlotEntry)) : List (Nat × ZoneInfo) :=
  (cache.filter fun p => p.2.used).map fun p =>
    (p.1, { name := p.2.name
            min := minTemp p.2.shift p.2.step
            max := maxTemp p.2.shift p.2.step })

/-- The mutable client state relevant to the cache: `self._params`
(`None` before the first population). -/
structure ClientState where
  params : Option (List (Nat × SlotEntry))
deriving DecidableEq

/-- `get_parameters` lines 28-42: populate the cache if absent, then answer
from the cache.  Returns the new state, the result (`none` models Python's
`return None` at line 33), and the number of transport reads performed. -/
def getParameters (s : ClientState) (dev : Device) :
    ClientState × Option (List (Nat × ZoneInfo)) × Nat :=
  let populated : ClientState × Nat :=
    match s.params with
    | none => ({ params := some (readParams dev) }, readParamsReads dev)
    | some _ => (s, 0)
  match populated.1.params with
  | none => (populated.1, none, populated.2)
  | some cache => (populated.1, some (listZones cache), populated.2)

/-! ### Helper lemmas on the bit operations -/

set_option maxRecDepth 4096

lemma and_63_eq_mod (b : Nat) : b &&& 63 = b % 64 := by
  simpa using Nat.and_pow_two_sub_one_eq_mod b 6

lemma and_7_eq_mod (b : Nat) : b &&& 7 = b % 8 := by
  simpa using Nat.and_pow_two_sub_one_eq_mod b 3

lemma and_31_eq_mod (b : Nat) : b &&& 31 = b % 32 := by
  simpa using Nat.and_pow_two_sub_one_eq_mod b 5

lemma shiftRight_5_eq_div (b : Nat) : b >>> 5 = b / 32 := by
  simpa using Nat.shiftRight_eq_div_pow b 5

lemma fin_and_192_shiftRight_6 :
    ∀ b : Fin 256, ((b : Nat) &&& 192) >>> 6 = (b : Nat) / 64 := by decide

lemma and_192_shiftRight_6 (b : Nat) (h : b < 256) : (b &&& 192) >>> 6 = b / 64 :=
  fin_and_192_shiftRight_6 ⟨b, h⟩

lemma fin_and_192_add_eq_or :
    ∀ b : Fin 256, ∀ t : Fin 32,
      ((b : Nat) &&& 192) + (t : Nat) = ((b : Nat) &&& 192) ||| (t : Nat) := by decide

lemma and_192_add_eq_or (b t : Nat) (hb : b < 256) (ht : t < 32) :
    (b &&& 192) + t = (b &&& 192) ||| t :=
  fin_and_192_add_eq_or ⟨b, hb⟩ ⟨t, ht⟩

/-! ### C1 -/

/-- C1: decoding a 4-byte zone config block yields `used` iff byte 0's low 3
bits are nonzero, `shift` is byte 2's low 6 bits sign-corrected (raw < 32 kept,
raw ≥ 32 lowered by 64; anchors: raw 0 ↦ 0, raw 32 ↦ -32, raw 63 ↦ -1), and
`step` is byte 2's high 2 bits plus 1; bytes `[0x01,0x00,0x41,0x00]` decode to
`used = true, shift = 1, step = 2`, with published bounds
`min = (1+1)*2 = 4` and `max = (30+1)*2 = 62`. -/
theorem C1_decode_zone_params (b0 b1 b2 b3 : Nat) (hb0 : b0 < 256) (hb2 : b2 < 256) :
    ((decode_zone_params [b0, b1, b2, b3]).used = true ↔ b0 % 8 ≠ 0) ∧
    (decode_zone_params [b0, b1, b2, b3]).shift =
      (if b2 % 64 < 32 then (b2 % 64 : Int) else (b2 % 64 : Int) - 64) ∧
    (decode_zone_params [b0, b1, b2, b3]).step = b2 / 64 + 1 ∧
    decodeShift 0 = 0 ∧ decodeShift 32 = -32 ∧ decodeShift 63 = -1 ∧
    decode_zone_params [0x01, 0x00, 0x41, 0x00] = ⟨true, 1, 2⟩ ∧
    minTemp 1 2 = 4 ∧ maxTemp 1 2 = 62 := by
  refine ⟨?_, ?_, ?_, by decide, by decide, by decide, by decide, by decide, by decide⟩
  · show (decodeUsed b0 = true ↔ b0 % 8 ≠ 0)
    simp [decodeUsed, and_7_eq_mod]
  · show decodeShift b2 = _
    unfold decodeShift
    rw [and_63_eq_mod]
    rcases Nat.lt_or_ge (b2 % 64) 32 with h32 | h32
    · rw [if_pos h32]
      omega
    · rw [if_neg (Nat.not_lt.mpr h32)]
      omega
  · show decodeStep b2 = _
    unfold decodeStep
    rw [and_192_shiftRight_6 b2 hb2]

/-- Witness for C1 at bytes `[0x01, 0x00, 0x41, 0x00]`. -/
theorem C1_witness :
    (1 : Nat) < 256 ∧ (0x41 : Nat) < 256 ∧
    (((decode_zone_params [1, 0, 0x41, 0]).used = true ↔ (1 : Nat) % 8 ≠ 0) ∧
     (decode_zone_params [1, 0, 0x41, 0]).shift =
       (if (0x41 : Nat) % 64 < 32 then ((0x41 : Nat) % 64 : Int)
        else ((0x41 : Nat) % 64 : Int) - 64) ∧
     (decode_zone_params [1, 0, 0x41, 0]).step = 0x41 / 64 + 1 ∧
     decodeShift 0 = 0 ∧ decodeShift 32 = -32 ∧ decodeShift 63 = -1 ∧
     decode_zone_params [0x01, 0x00, 0x41, 0x00] = ⟨true, 1, 2⟩ ∧
     minTemp 1 2 = 4 ∧ maxTemp 1 2 = 62) :=
  ⟨by decide, by decide, C1_decode_zone_params 1 0 0x41 0 (by decide) (by decide)⟩

/-! ### C2 -/

/-- C2: the 5-byte payload of `set_temporary_temperature` is the existing first
byte's top 2 bits OR'd with the 5-bit target raw level, followed by the 2-byte
big-endian start and end time-of-year stamps; a target raw level is always a
5-bit value; a time-of-year stamp is `minute/15 + hour*4 + day*128 +
month*4096`, and 14:32 on day 10, month 3 packs to 13626. -/
theorem C2_temporary_override_payload (e t sTy eTy : Nat)
    (he : e < 256) (ht : t < 32) (hs : sTy < 65536) (hE : eTy < 65536) :
    encodeTemporaryOverride e t sTy eTy =
      [(e &&& 0xC0) ||| t, sTy / 256, sTy % 256, eTy / 256, eTy % 256] ∧
    (∀ (temperature shift : Int) (step : Nat),
      (targetRawLevel temperature step shift).toNat < 32) ∧
    (∀ minute hour day month : Nat,
      getToy minute hour day month = minute / 15 + hour * 4 + day * 128 + month * 4096) ∧
    getToy 32 14 10 3 = 13626 := by
  refine ⟨?_, ?_, ?_, by decide⟩
  · have h1 : (e &&& 0xC0) + t = (e &&& 0xC0) ||| t := and_192_add_eq_or e t he ht
    have h2 : sTy / 256 % 256 = sTy / 256 := Nat.mod_eq_of_lt (by omega)
    have h3 : eTy / 256 % 256 = eTy / 256 := Nat.mod_eq_of_lt (by omega)
    simp [encodeTemporaryOverride, toBytesBE2, h1, h2, h3]
  · intro temperature shift step
    have h1 : (0 : Int) ≤ (Int.fdiv temperature (step : Nat) - shift) % 32 :=
      Int.emod_nonneg _ (by norm_num)
    have h2 : (Int.fdiv temperature (step : Nat) - shift) % 32 < 32 :=
      Int.emod_lt_of_pos _ (by norm_num)
    unfold targetRawLevel
    omega
  · intro minute hour day month
    unfold getToy
    ring

/-- Witness for C2 at `existing = 0x93`, `level = 5`, stamps `13626` and `13700`. -/
theorem C2_witness :
    (0x93 : Nat) < 256 ∧ (5 : Nat) < 32 ∧ (13626 : Nat) < 65536 ∧ (13700 : Nat) < 65536 ∧
    (encodeTemporaryOverride 0x93 5 13626 13700 =
      [(0x93 &&& 0xC0) ||| 5, 13626 / 256, 13626 % 256, 13700 / 256, 13700 % 256] ∧
    (∀ (temperature shift : Int) (step : Nat),
      (targetRawLevel temperature step shift).toNat < 32) ∧
    (∀ minute hour day month : Nat,
      getToy minute hour day month = minute / 15 + hour * 4 + day * 128 + month * 4096) ∧
    getToy 32 14 10 3 = 13626) :=
  ⟨by decide, by decide, by decide, by decide,
   C2_temporary_override_payload 0x93 5 13626 13700
     (by decide) (by decide) (by decide) (by decide)⟩

/-! ### C3 -/

/-- C3: for a zone with parameters `shift`/`step` (`step ≥ 1`) and any
temperature exactly representable as `(b + shift) * step` with `b` a 5-bit
value, the target-raw-level encoding recovers `b` and decoding the encoded
level returns the temperature; outside the representable range the 5-bit mask
silently wraps: with `shift = 0, step = 1` (range `[1, 30]`), temperature 32
encodes to raw level 0 and decodes back to 0, not 32. -/
theorem C3_target_raw_level_roundtrip (shift : Int) (step : Nat) (b : Int)
    (hstep : 1 ≤ step) (hb0 : 0 ≤ b) (hb : b < 32) :
    targetRawLevel ((b + shift) * step) step shift = b ∧
    decodeCurrentTemp (targetRawLevel ((b + shift) * step) step shift).toNat shift step
      = (b + shift) * step ∧
    targetRawLevel 32 1 0 = 0 ∧
    decodeCurrentTemp (targetRawLevel 32 1 0).toNat 0 1 = 0 := by
  have hsne : ((step : Nat) : Int) ≠ 0 := by
    have : 0 < step := by omega
    exact_mod_cast Nat.pos_iff_ne_zero.mp this
  have hmain : targetRawLevel ((b + shift) * step) step shift = b := by
    unfold targetRawLevel
    rw [Int.mul_fdiv_cancel _ hsne]
    have : b + shift - shift = b := by ring
    rw [this]
    exact Int.emod_eq_of_lt hb0 hb
  refine ⟨hmain, ?_, by decide, by decide⟩
  rw [hmain]
  unfold decodeCurrentTemp
  rw [Int.toNat_of_nonneg hb0]

/-- Witness for C3 at `shift = 1, step = 2, b = 5` (temperature 12). -/
theorem C3_witness :
    (1 : Nat) ≤ 2 ∧ (0 : Int) ≤ 5 ∧ (5 : Int) < 32 ∧
    (targetRawLevel ((5 + 1) * 2) 2 1 = 5 ∧
     decodeCurrentTemp (targetRawLevel ((5 + 1) * 2) 2 1).toNat 1 2 = (5 + 1) * 2 ∧
     targetRawLevel 32 1 0 = 0 ∧
     decodeCurrentTemp (targetRawLevel 32 1 0).toNat 0 1 = 0) :=
  ⟨by decide, by decide, by decide,
   C3_target_raw_level_roundtrip 1 2 5 (by decide) (by decide) (by decide)⟩

/-! ### C4 -/

/-- C4: from a 6-byte mode block, `want_auto = true` yields a 5-byte block
whose byte 0 is the existing byte 0 with bit 5 (`0x20`) cleared and every
other bit preserved, and whose bytes 1..4 are the fixed sentinel
`0x10 0x80 0x10 0x80`; `want_auto = false` yields byte 0 with bit 5 set and
every other bit preserved, and bytes 1..4 equal to the existing bytes 1..4. -/
theorem C4_toggle_mode (d0 d1 d2 d3 d4 d5 : Nat) (h : d0 < 256) :
    (∀ i : Nat, ((toggleModeBytes [d0, d1, d2, d3, d4, d5] true).getD 0 0).testBit i
        = if i = 5 then false else d0.testBit i) ∧
    (toggleModeBytes [d0, d1, d2, d3, d4, d5] true).drop 1 = [0x10, 0x80, 0x10, 0x80] ∧
    (∀ i : Nat, ((toggleModeBytes [d0, d1, d2, d3, d4, d5] false).getD 0 0).testBit i
        = if i = 5 then true else d0.testBit i) ∧
    (toggleModeBytes [d0, d1, d2, d3, d4, d5] false).drop 1 = [d1, d2, d3, d4] ∧
    (toggleModeBytes [d0, d1, d2, d3, d4, d5] true).length = 5 ∧
    (toggleModeBytes [d0, d1, d2, d3, d4, d5] false).length = 5 := by
  refine ⟨?_, rfl, ?_, rfl, rfl, rfl⟩
  · intro i
    show (d0 &&& 0xDF).testBit i = _
    rw [Nat.testBit_land]
    rcases Nat.lt_or_ge i 8 with hi | hi
    · by_cases h5 : i = 5
      · subst h5
        simp [show Nat.testBit 223 5 = false from by decide]
      · have ht : Nat.testBit 223 i = true := by
          interval_cases i <;> first | exact absurd rfl h5 | decide
        simp [ht, h5]
    · have h8 : (256 : Nat) ≤ 2 ^ i := by
        calc (256 : Nat) = 2 ^ 8 := by norm_num
          _ ≤ 2 ^ i := Nat.pow_le_pow_right (by norm_num) hi
      have hd : d0.testBit i = false := Nat.testBit_eq_false_of_lt (by omega)
      have h5 : i ≠ 5 := by omega
      simp [hd, h5]
  · intro i
    show (d0 ||| 0x20).testBit i = _
    rw [Nat.testBit_lor]
    by_cases h5 : i = 5
    · subst h5
      simp [show Nat.testBit 32 5 = true from by decide]
    · have ht : Nat.testBit 32 i = false := by
        rcases Nat.lt_or_ge i 8 with hi | hi
        · interval_cases i <;> first | exact absurd rfl h5 | decide
        · refine Nat.testBit_eq_false_of_lt ?_
          calc (32 : Nat) < 2 ^ 8 := by norm_num
            _ ≤ 2 ^ i := Nat.pow_le_pow_right (by norm_num) hi
      simp [ht, h5]

/-- Witness for C4 at the block `[0xFF, 1, 2, 3, 4, 5]`. -/
theorem C4_witness :
    (0xFF : Nat) < 256 ∧
    ((∀ i : Nat, ((toggleModeBytes [0xFF, 1, 2, 3, 4, 5] true).getD 0 0).testBit i
        = if i = 5 then false else (0xFF : Nat).testBit i) ∧
     (toggleModeBytes [0xFF, 1, 2, 3, 4, 5] true).drop 1 = [0x10, 0x80, 0x10, 0x80] ∧
     (∀ i : Nat, ((toggleModeBytes [0xFF, 1, 2, 3, 4, 5] false).getD 0 0).testBit i
        = if i = 5 then true else (0xFF : Nat).testBit i) ∧
     (toggleModeBytes [0xFF, 1, 2, 3, 4, 5] false).drop 1 = [1, 2, 3, 4] ∧
     (toggleModeBytes [0xFF, 1, 2, 3, 4, 5] true).length = 5 ∧
     (toggleModeBytes [0xFF, 1, 2, 3, 4, 5] false).length = 5) :=
  ⟨by decide, C4_toggle_mode 0xFF 1 2 3 4 5 (by decide)⟩

/-! ### C5 -/

/-- C5 (amended): the decoded flag is the top 3 bits of the requirement byte —
a value in `0..7`, of which only `0..4` carry the documented meanings — and the
decoded required temperature is `((byte AND 0x1F) + shift) * step`; byte `0x45`
with `shift = 1, step = 2` decodes to `flag = 2`, `required_temp = 12`. -/
theorem C5_decode_requirement (b : Nat) (shift : Int) (step : Nat) (hb : b < 256) :
    (decodeRequirement b shift step).flag = b / 32 ∧
    (decodeRequirement b shift step).flag ≤ 7 ∧
    (decodeRequirement b shift step).temp = ((b % 32 : Nat) + shift) * (step : Nat) ∧
    decodeRequirement 0x45 1 2 = ⟨12, 2⟩ := by
  refine ⟨?_, ?_, ?_, by decide⟩
  · show b >>> 5 = _
    rw [shiftRight_5_eq_div]
  · show b >>> 5 ≤ 7
    rw [shiftRight_5_eq_div]
    omega
  · show ((b &&& 0x1F : Nat) + shift) * (step : Nat) = _
    rw [and_31_eq_mod]

/-- C5 counterexample: requirement byte `0xE0` decodes to flag `7`, which is
not in the claimed enumeration `{0, 1, 2, 3, 4}`. -/
theorem C5_counterexample :
    (decodeRequirement 0xE0 1 2).flag = 7 ∧
    ¬((decodeRequirement 0xE0 1 2).flag = 0 ∨ (decodeRequirement 0xE0 1 2).flag = 1 ∨
      (decodeRequirement 0xE0 1 2).flag = 2 ∨ (decodeRequirement 0xE0 1 2).flag = 3 ∨
      (decodeRequirement 0xE0 1 2).flag = 4) := by decide

/-- Witness for C5 at byte `0x45`, `shift = 1`, `step = 2`. -/
theorem C5_witness :
    (0x45 : Nat) < 256 ∧
    ((decodeRequirement 0x45 1 2).flag = 0x45 / 32 ∧
     (decodeRequirement 0x45 1 2).flag ≤ 7 ∧
     (decodeRequirement 0x45 1 2).temp = ((0x45 % 32 : Nat) + 1) * ((2 : Nat) : Int) ∧
     decodeRequirement 0x45 1 2 = ⟨12, 2⟩) :=
  ⟨by decide, C5_decode_requirement 0x45 1 2 (by decide)⟩

/-! ### C7 -/

/-- C7: a transport error on a slot's config read records the slot as
`used = false`, name `"<timeout>"`, sentinel `shift = 5, step = 1` (first
conjunct — this half of the claim holds).  But when the config read succeeds
and says `used` while the NAME read errors, the produced name is the error
response's register bytes, NOT the empty name the claim (and the spec's
intent) requires: the source's line 158 re-tests `param_response.isError()`
instead of `name_response.isError()`, so the error branch is dead. -/
theorem C7_name_read_error_not_blanked :
    readParamsEntry ⟨true, []⟩ ⟨false, [65, 66]⟩ =
      { used := false, name := timeoutNameBytes, shift := 5, step := 1 } ∧
    (readParamsEntry ⟨false, [1, 0, 0x41, 0]⟩ ⟨true, [65, 66]⟩).used = true ∧
    (readParamsEntry ⟨false, [1, 0, 0x41, 0]⟩ ⟨true, [65, 66]⟩).name = [65, 66] ∧
    (readParamsEntry ⟨false, [1, 0, 0x41, 0]⟩ ⟨true, [65, 66]⟩).name ≠ [] := by
  decide

/-! ### C6 -/

lemma retryLoop_found (f : Nat → ModbusResult) (i fuel : Nat)
    (h : (f i).isError = false) : retryLoop f i (fuel + 1) = (f i, 0) := by
  simp [retryLoop, h]

lemma retryLoop_step (f : Nat → ModbusResult) (i fuel : Nat)
    (h : (f i).isError = true) :
    retryLoop f i (fuel + 2) =
      ((retryLoop f (i + 1) (fuel + 1)).1, (retryLoop f (i + 1) (fuel + 1)).2 + 1) := by
  simp [retryLoop, h]

lemma retryLoop_last (f : Nat → ModbusResult) (i : Nat)
    (h : (f i).isError = true) : retryLoop f i 1 = (f i, 1) := by
  simp [retryLoop, h]

/-- C6: the transaction executor attempts the transport operation up to
`CONF_MODBUS_RETR = 10` times, sleeping `CONF_MODBUS_RETR_WAIT = 1` time-unit
after each failed attempt, and returns the last result: if attempts 0..2 fail
and attempt 3 succeeds, the call returns attempt 3's result (after 3 sleeps);
if all 10 attempts fail, it returns attempt 9's error result (after 10
sleeps). -/
theorem C6_retry_discipline (f : Nat → ModbusResult) :
    ((∀ i, i < 3 → (f i).isError = true) → (f 3).isError = false →
      etaRetry f = (f 3, 3)) ∧
    ((∀ i, i < 10 → (f i).isError = true) →
      etaRetry f = (f 9, 10) ∧ (etaRetry f).1.isError = true) ∧
    CONF_MODBUS_RETR = 10 ∧ CONF_MODBUS_RETR_WAIT = 1 := by
  refine ⟨?_, ?_, rfl, rfl⟩
  · intro h3 h4
    have e0 := retryLoop_step f 0 8 (h3 0 (by omega))
    have e1 := retryLoop_step f 1 7 (h3 1 (by omega))
    have e2 := retryLoop_step f 2 6 (h3 2 (by omega))
    have e3 := retryLoop_found f 3 6 h4
    show retryLoop f 0 10 = (f 3, 3)
    rw [show (10 : Nat) = 8 + 2 from rfl, e0, show (8 : Nat) + 1 = 7 + 2 from rfl, e1,
        show (7 : Nat) + 1 = 6 + 2 from rfl, e2, show (6 : Nat) + 1 = 6 + 1 from rfl, e3]
  · intro h
    have key : etaRetry f = (f 9, 10) := by
      have e0 := retryLoop_step f 0 8 (h 0 (by omega))
      have e1 := retryLoop_step f 1 7 (h 1 (by omega))
      have e2 := retryLoop_step f 2 6 (h 2 (by omega))
      have e3 := retryLoop_step f 3 5 (h 3 (by omega))
      have e4 := retryLoop_step f 4 4 (h 4 (by omega))
      have e5 := retryLoop_step f 5 3 (h 5 (by omega))
      have e6 := retryLoop_step f 6 2 (h 6 (by omega))
      have e7 := retryLoop_step f 7 1 (h 7 (by omega))
      have e8 := retryLoop_step f 8 0 (h 8 (by omega))
      have e9 := retryLoop_last f 9 (h 9 (by omega))
      show retryLoop f 0 10 = (f 9, 10)
      rw [show (10 : Nat) = 8 + 2 from rfl, e0, show (8 : Nat) + 1 = 7 + 2 from rfl, e1,
          show (7 : Nat) + 1 = 6 + 2 from rfl, e2, show (6 : Nat) + 1 = 5 + 2 from rfl, e3,
          show (5 : Nat) + 1 = 4 + 2 from rfl, e4, show (4 : Nat) + 1 = 3 + 2 from rfl, e5,
          show (3 : Nat) + 1 = 2 + 2 from rfl, e6, show (2 : Nat) + 1 = 1 + 2 from rfl, e7,
          show (1 : Nat) + 1 = 0 + 2 from rfl, e8, show (0 : Nat) + 1 = 1 from rfl, e9]
    exact ⟨key, by rw [key]; exact h 9 (by omega)⟩

/-- Transport behaviour failing on attempts 0..2 and succeeding from attempt 3. -/
def failThriceDev : Nat → ModbusResult := fun i =>
  if i < 3 then ⟨true, []⟩ else ⟨false, [7]⟩

/-- Transport behaviour failing on every attempt. -/
def alwaysFailDev : Nat → ModbusResult := fun _ => ⟨true, []⟩

/-- Witness for C6 on both scenario behaviours. -/
theorem C6_witness :
    etaRetry failThriceDev = (failThriceDev 3, 3) ∧
    etaRetry alwaysFailDev = (alwaysFailDev 9, 10) ∧
    (etaRetry alwaysFailDev).1.isError = true :=
  ⟨(C6_retry_discipline failThriceDev).1
      (fun i hi => by simp [failThriceDev, hi]) (by simp [failThriceDev]),
   ((C6_retry_discipline alwaysFailDev).2.1 (fun i _ => rfl)).1,
   ((C6_retry_discipline alwaysFailDev).2.1 (fun i _ => rfl)).2⟩

/-! ### C8 -/

/-- Device on which every read succeeds with a fixed used-zone payload. -/
def devAllOk : Device := fun _ _ => ⟨false, [1, 0, 0x41, 0, 65, 0]⟩

/-- Device on which every read fails. -/
def devAllError : Device := fun _ _ => ⟨true, []⟩

/-- C8: starting from an unpopulated cache, a second `get_parameters` call
(against ANY later device behaviour `devLater`) returns the same result as the
first, leaves the state unchanged, and performs zero transport reads — the
cache is populated at most once per process run; and every zone the result
lists comes from a cache entry with `used = true`. -/
theorem C8_parameters_cached (s0 : ClientState) (dev devLater : Device)
    (h : s0.params = none) :
    (getParameters (getParameters s0 dev).1 devLater).2.1 = (getParameters s0 dev).2.1 ∧
    (getParameters (getParameters s0 dev).1 devLater).1 = (getParameters s0 dev).1 ∧
    (getParameters (getParameters s0 dev).1 devLater).2.2 = 0 ∧
    (∀ (cache : List (Nat × SlotEntry)) (pos : Nat) (z : ZoneInfo),
      (pos, z) ∈ listZones cache →
      ∃ e : SlotEntry, (pos, e) ∈ cache ∧ e.used = true) := by
  obtain ⟨p⟩ := s0
  cases p with
  | some c => simp at h
  | none =>
    refine ⟨by simp [getParameters], by simp [getParameters], by simp [getParameters], ?_⟩
    intro cache pos z hmem
    unfold listZones at hmem
    obtain ⟨⟨pos', e⟩, hmem', heq⟩ := List.mem_map.mp hmem
    obtain ⟨hmem'', hused⟩ := List.mem_filter.mp hmem'
    have hp : pos' = pos := congrArg Prod.fst heq
    subst hp
    exact ⟨e, hmem'', by simpa using hused⟩

/-- Witness for C8: first call on the all-ok device, second on the all-error
device; the second call still answers from the cache with zero reads. -/
theorem C8_witness :
    (ClientState.mk none).params = none ∧
    ((getParameters (getParameters ⟨none⟩ devAllOk).1 devAllError).2.1 =
        (getParameters ⟨none⟩ devAllOk).2.1 ∧
     (getParameters (getParameters ⟨none⟩ devAllOk).1 devAllError).1 =
        (getParameters ⟨none⟩ devAllOk).1 ∧
     (getParameters (getParameters ⟨none⟩ devAllOk).1 devAllError).2.2 = 0 ∧
     (∀ (cache : List (Nat × SlotEntry)) (pos : Nat) (z : ZoneInfo),
       (pos, z) ∈ listZones cache →
       ∃ e : SlotEntry, (pos, e) ∈ cache ∧ e.used = true)) :=
  ⟨rfl, C8_parameters_cached ⟨none⟩ devAllOk devAllError rfl⟩

/-! ### C10 -/

/-- C10: whatever the device behaviour, `__read_params` records an entry for
every slot 1..16 (lookups by the per-zone loops never miss), and
`get_parameters` never takes its `return None` fallback after population: the
result is always a populated zone list. -/
theorem C10_cache_total (dev : Device) (s : ClientState) (pos : Nat)
    (h1 : 1 ≤ pos) (h2 : pos ≤ 16) :
    ((readParams dev).lookup pos).isSome = true ∧
    (getParameters s dev).2.1 ≠ none := by
  constructor
  · interval_cases pos <;> rfl
  · obtain ⟨p⟩ := s
    cases p <;> simp [getParameters]

/-- Witness for C10 at slot 3, unpopulated state, all-error device (even total
transport failure leaves every slot present). -/
theorem C10_witness :
    (1 : Nat) ≤ 3 ∧ (3 : Nat) ≤ 16 ∧
    (((readParams devAllError).lookup 3).isSome = true ∧
     (getParameters ⟨none⟩ devAllError).2.1 ≠ none) :=
  ⟨by decide, by decide, C10_cache_total devAllError ⟨none⟩ 3 (by decide) (by decide)⟩

end Etatherm
